import Mathlib

/-!
# Verification of the global-state access layer (`routes/global_state.go`)

This file shallowly embeds the global-state access layer of the repository:
the key-prefix codec, the local store primitives executed against the
embedded badger engine, and the local-vs-remote dispatch performed by the
five public primitives (`GlobalStatePut`, `GlobalStateGet`,
`GlobalStateBatchGet`, `GlobalStateDelete`, `GlobalStateSeek`).

Modelling conventions:

* Go byte slices are modelled at the value level as `List Nat` (each entry a
  byte value; a `nil` slice and an empty slice are both `[]`, as the two are
  observationally identical for this code).
* The badger engine is abstracted by `BadgerTxn`: a point lookup returns
  either an item (whose `ValueCopy` may itself fail) or an engine error,
  which is either `keyNotFound` or any `other` engine failure.  A healthy
  map-backed engine is given by `txnOfStore`.
* The network is abstracted by `RemoteEnv`: `post` models Go `http.Post`
  (which returns an error only on transport failure; a non-2xx HTTP status
  is delivered as a normal `response`), and the per-type `marshal` /
  `decode` fields model `json.Marshal` / `json.Decoder.Decode` at the
  request/response types used by this file.
* Go `error` results are modelled as `Except String`; `fmt.Errorf` wrapping
  becomes string concatenation with the same operation-naming text.
-/

/-- A Go byte slice, at the value level. -/
abbrev Bytes := List Nat

/-- An error returned by the badger engine: either the distinguished
key-not-found condition or any other engine failure (I/O, corruption...). -/
inductive BadgerErr where
  | keyNotFound
  | other (msg : String)
deriving DecidableEq

/-- The message text of an engine error (what Go's `%v` formatting shows). -/
def BadgerErr.message : BadgerErr → String
  | .keyNotFound => "Key not found"
  | .other m => m

/-- A badger item as returned by `txn.Get`: its `ValueCopy` either yields
the stored bytes or fails. -/
structure BadgerItem where
  valueCopy : Except BadgerErr Bytes

/-- A badger read transaction, abstracted to its point-lookup behaviour. -/
structure BadgerTxn where
  get : Bytes → Except BadgerErr BadgerItem

/-- The local key-value store contents, as an association list keyed by the
raw key bytes (models the badger database at the value level). -/
abbrev Store := List (Bytes × Bytes)

/-- Look a key up in the store. -/
def storeGet : Store → Bytes → Option Bytes
  | [], _ => none
  | (k, v) :: rest, key => if k = key then some v else storeGet rest key

/-- Remove a key from the store (models `txn.Delete`; removing an absent key
changes nothing and is not an error). -/
def storeDelete : Store → Bytes → Store
  | [], _ => []
  | (k, v) :: rest, key =>
    if k = key then storeDelete rest key else (k, v) :: storeDelete rest key

/-- Overwrite a key in the store unconditionally (models `txn.Set`). -/
def storeSet (s : Store) (key value : Bytes) : Store :=
  (key, value) :: storeDelete s key

/-- The read transaction exposed by a healthy map-backed engine over a given
store state: a present key yields an item whose copy succeeds with the
stored value; an absent key fails with `keyNotFound`. -/
def txnOfStore (s : Store) : BadgerTxn :=
  ⟨fun key =>
    match storeGet s key with
    | some v => .ok ⟨.ok v⟩
    | none => .error .keyNotFound⟩

/-! ## Local store primitives

Each definition translates the body of the corresponding closure passed to
`GlobalStateDB.View` / `GlobalStateDB.Update` in `global_state.go`, together
with the error wrapping performed after the transaction returns. -/

/-- Local path of `GlobalStateGet` (global_state.go lines 433-450).  The Go
closure does `item, err := txn.Get(key); if err != nil { return nil }`: any
lookup error, key-not-found or otherwise, makes the closure succeed with
`retValue` still nil, so the caller sees an empty value and no error.  Only
a failing `item.ValueCopy` propagates, wrapped with the operation name. -/
def globalStateGetLocal (txn : BadgerTxn) (key : Bytes) : Except String Bytes :=
  match txn.get key with
  | .error _ => .ok []
  | .ok item =>
    match item.valueCopy with
    | .error e =>
      .error ("GlobalStateGet: Error copying value into new slice: " ++ e.message)
    | .ok v => .ok v

/-- The loop inside the `GlobalStateBatchGet` view closure (global_state.go
lines 535-551): per key, a failing `txn.Get` appends an empty value and
continues; a failing `ValueCopy` aborts the whole transaction with its
error; otherwise the copied value is appended in input order. -/
def globalStateBatchGetLoop (txn : BadgerTxn) : List Bytes → Except BadgerErr (List Bytes)
  | [] => .ok []
  | key :: rest =>
    match txn.get key with
    | .error _ =>
      match globalStateBatchGetLoop txn rest with
      | .error e => .error e
      | .ok vs => .ok ([] :: vs)
    | .ok item =>
      match item.valueCopy with
      | .error e => .error e
      | .ok v =>
        match globalStateBatchGetLoop txn rest with
        | .error e => .error e
        | .ok vs => .ok (v :: vs)

/-- Local path of `GlobalStateBatchGet` (global_state.go lines 534-556):
the loop above run in one read transaction, its error wrapped with the
operation name; on error no value list is returned. -/
def globalStateBatchGetLocal (txn : BadgerTxn) (keyList : List Bytes) :
    Except String (List Bytes) :=
  match globalStateBatchGetLoop txn keyList with
  | .error e =>
    .error ("GlobalStateBatchGet: Error copying value into new slice: " ++ e.message)
  | .ok vs => .ok vs

/-- Local path of `GlobalStatePut` (global_state.go lines 347-349): a single
write transaction that sets the key unconditionally.  The healthy engine
model never fails a write. -/
def globalStatePutLocal (db : Store) (key value : Bytes) : Except String Store :=
  .ok (storeSet db key value)

/-- Local path of `GlobalStateDelete` (global_state.go lines 636-638): a
single write transaction deleting the key; deleting an absent key succeeds. -/
def globalStateDeleteLocal (db : Store) (key : Bytes) : Except String Store :=
  .ok (storeDelete db key)

/-! ## Remote proxy client -/

/-- The outcome of Go `http.Post`: a transport-level failure (`err != nil`),
or a delivered HTTP response carrying a status code and a body.  Note that
`http.Post` does NOT fail on a non-2xx status; the status arrives in the
`response` constructor. -/
inductive PostResult where
  | transportError (msg : String)
  | response (statusCode : Nat) (body : Bytes)

/-- The network and serialization environment of the remote proxy client:
`post` models `http.Post`; the `marshal` fields model `json.Marshal` at the
request types; the `decode` fields model `json.Decoder.Decode` at the
response types (`none` = decode failure, in which case the Go code keeps the
zero-valued response struct). -/
structure RemoteEnv where
  post : String → Bytes → PostResult
  marshalPutReq : Bytes → Bytes → Except String Bytes
  marshalGetReq : Bytes → Except String Bytes
  marshalBatchGetReq : List Bytes → Except String Bytes
  marshalDeleteReq : Bytes → Except String Bytes
  marshalSeekReq : Bytes → Bytes → Nat → Nat → Bool → Bool → Except String Bytes
  decodeGetResp : Bytes → Option Bytes
  decodeBatchGetResp : Bytes → Option (List Bytes)
  decodeSeekResp : Bytes → Option (List Bytes × List Bytes)

/-- The configuration of an API server instance relevant to global state:
the remote owner address (empty string = this instance owns the data
locally) and the shared secret sent on every remote call. -/
structure APIServer where
  GlobalStateRemoteNode : String
  GlobalStateRemoteNodeSharedSecret : String

def GlobalStateSharedSecretParam : String := "shared_secret"

def RoutePathGlobalStatePutRemote : String := "/api/v1/global-state/put"

def RoutePathGlobalStateGetRemote : String := "/api/v1/global-state/get"

def RoutePathGlobalStateBatchGetRemote : String := "/api/v1/global-state/batch-get"

def RoutePathGlobalStateDeleteRemote : String := "/api/v1/global-state/delete"

def RoutePathGlobalStateSeekRemote : String := "/api/v1/global-state/seek"

/-- The URL built by every `CreateGlobalState*Request` function:
`fmt.Sprintf("%s%s?%s=%s", remoteNode, route, secretParam, secret)`. -/
def remoteUrl (fes : APIServer) (route : String) : String :=
  fes.GlobalStateRemoteNode ++ route ++ "?" ++ GlobalStateSharedSecretParam
    ++ "=" ++ fes.GlobalStateRemoteNodeSharedSecret

/-- `CreateGlobalStatePutRequest` (global_state.go lines 301-318). -/
def CreateGlobalStatePutRequest (fes : APIServer) (env : RemoteEnv)
    (key value : Bytes) : Except String (String × Bytes) :=
  match env.marshalPutReq key value with
  | .error e => .error ("GlobalStatePut: Could not marshal JSON: " ++ e)
  | .ok jsonData => .ok (remoteUrl fes RoutePathGlobalStatePutRemote, jsonData)

/-- `CreateGlobalStateGetRequest` (global_state.go lines 387-403). -/
def CreateGlobalStateGetRequest (fes : APIServer) (env : RemoteEnv)
    (key : Bytes) : Except String (String × Bytes) :=
  match env.marshalGetReq key with
  | .error e => .error ("GlobalStateGet: Could not marshal JSON: " ++ e)
  | .ok jsonData => .ok (remoteUrl fes RoutePathGlobalStateGetRemote, jsonData)

/-- `CreateGlobalStateBatchGetRequest` (global_state.go lines 488-504). -/
def CreateGlobalStateBatchGetRequest (fes : APIServer) (env : RemoteEnv)
    (keyList : List Bytes) : Except String (String × Bytes) :=
  match env.marshalBatchGetReq keyList with
  | .error e => .error ("GlobalStateBatchGet: Could not marshal JSON: " ++ e)
  | .ok jsonData => .ok (remoteUrl fes RoutePathGlobalStateBatchGetRemote, jsonData)

/-- `CreateGlobalStateDeleteRequest` (global_state.go lines 566-582). -/
def CreateGlobalStateDeleteRequest (fes : APIServer) (env : RemoteEnv)
    (key : Bytes) : Except String (String × Bytes) :=
  match env.marshalDeleteReq key with
  | .error e => .error ("GlobalStateDelete: Could not marshal JSON: " ++ e)
  | .ok jsonData => .ok (remoteUrl fes RoutePathGlobalStateDeleteRemote, jsonData)

/-- `CreateGlobalStateSeekRequest` (global_state.go lines 654-676). -/
def CreateGlobalStateSeekRequest (fes : APIServer) (env : RemoteEnv)
    (startPrefixArg validForPrefixArg : Bytes) (maxKeyLen numToFetch : Nat)
    (reverse fetchValues : Bool) : Except String (String × Bytes) :=
  match env.marshalSeekReq startPrefixArg validForPrefixArg maxKeyLen numToFetch reverse fetchValues with
  | .error e => .error ("GlobalStateSeek: Could not marshal JSON: " ++ e)
  | .ok jsonData => .ok (remoteUrl fes RoutePathGlobalStateSeekRemote, jsonData)

/-- Remote branch of `GlobalStatePut` (global_state.go lines 322-343): on a
transport failure the operation errors with its name; on any delivered
response (status never inspected, body closed without decoding) it
succeeds, leaving the local store untouched. -/
def globalStatePutRemote (fes : APIServer) (env : RemoteEnv) (db : Store)
    (key value : Bytes) : Except String Store :=
  match CreateGlobalStatePutRequest fes env key value with
  | .error e => .error ("GlobalStatePut: Error constructing request: " ++ e)
  | .ok ud =>
    match env.post ud.1 ud.2 with
    | .transportError _ => .error "GlobalStatePut: Error processing remote request"
    | .response _ _ => .ok db

/-- Remote branch of `GlobalStateGet` (global_state.go lines 407-429): on a
transport failure the operation errors with its name; on any delivered
response the body is decoded with the decode error ignored, so a failed
decode returns the zero-valued response (empty value) as success. -/
def globalStateGetRemote (fes : APIServer) (env : RemoteEnv) (key : Bytes) :
    Except String Bytes :=
  match CreateGlobalStateGetRequest fes env key with
  | .error e => .error ("GlobalStateGet: Error constructing request: " ++ e)
  | .ok ud =>
    match env.post ud.1 ud.2 with
    | .transportError _ => .error "GlobalStateGet: Error processing remote request"
    | .response _ body =>
      match env.decodeGetResp body with
      | some v => .ok v
      | none => .ok []

/-- Remote branch of `GlobalStateBatchGet` (global_state.go lines 508-530). -/
def globalStateBatchGetRemote (fes : APIServer) (env : RemoteEnv)
    (keyList : List Bytes) : Except String (List Bytes) :=
  match CreateGlobalStateBatchGetRequest fes env keyList with
  | .error e => .error ("GlobalStateBatchGet: Error constructing request: " ++ e)
  | .ok ud =>
    match env.post ud.1 ud.2 with
    | .transportError _ => .error "GlobalStateBatchGet: Error processing remote request"
    | .response _ body =>
      match env.decodeBatchGetResp body with
      | some vs => .ok vs
      | none => .ok []

/-- Remote branch of `GlobalStateDelete` (global_state.go lines 610-632). -/
def globalStateDeleteRemote (fes : APIServer) (env : RemoteEnv) (db : Store)
    (key : Bytes) : Except String Store :=
  match CreateGlobalStateDeleteRequest fes env key with
  | .error e => .error ("GlobalStateDelete: Could not construct request: " ++ e)
  | .ok ud =>
    match env.post ud.1 ud.2 with
    | .transportError _ => .error "GlobalStateDelete: Error processing remote request"
    | .response _ _ => .ok db

/-- Remote branch of `GlobalStateSeek` (global_state.go lines 717-745). -/
def globalStateSeekRemote (fes : APIServer) (env : RemoteEnv)
    (startPrefixArg validForPrefixArg : Bytes) (maxKeyLen numToFetch : Nat)
    (reverse fetchValues : Bool) : Except String (List Bytes × List Bytes) :=
  match CreateGlobalStateSeekRequest fes env startPrefixArg validForPrefixArg maxKeyLen numToFetch reverse fetchValues with
  | .error e => .error ("GlobalStateSeek: Error constructing request: " ++ e)
  | .ok ud =>
    match env.post ud.1 ud.2 with
    | .transportError _ => .error "GlobalStateSeek: Error processing remote request"
    | .response _ body =>
      match env.decodeSeekResp body with
      | some kv => .ok kv
      | none => .ok ([], [])

/-- The type of the external core-library function
`lib.DBGetPaginatedKeysAndValuesForPrefix` used by the local path of
`GlobalStateSeek`; the library is an external collaborator, so it enters
the model as an oracle parameter. -/
abbrev SeekOracle :=
  Bytes → Bytes → Nat → Nat → Bool → Bool → Except String (List Bytes × List Bytes)

/-- Local branch of `GlobalStateSeek` (global_state.go lines 748-755): the
library call's error is wrapped with the operation name. -/
def globalStateSeekLocal (dbSeek : SeekOracle)
    (startPrefixArg validForPrefixArg : Bytes) (maxKeyLen numToFetch : Nat)
    (reverse fetchValues : Bool) : Except String (List Bytes × List Bytes) :=
  match dbSeek startPrefixArg validForPrefixArg maxKeyLen numToFetch reverse fetchValues with
  | .error e => .error ("GlobalStateSeek: Error getting paginated keys and values: " ++ e)
  | .ok kv => .ok kv

/-! ## Dispatch layer

Each of the five public primitives branches exactly once, on
`fes.GlobalStateRemoteNode != ""`, between the remote branch and the local
branch translated above (in the Go source the two branch bodies are written
inline inside the same function). -/

/-- `GlobalStatePut` (global_state.go lines 320-350). -/
def GlobalStatePut (fes : APIServer) (env : RemoteEnv) (db : Store)
    (key value : Bytes) : Except String Store :=
  if fes.GlobalStateRemoteNode ≠ "" then globalStatePutRemote fes env db key value
  else globalStatePutLocal db key value

/-- `GlobalStateGet` (global_state.go lines 405-451). -/
def GlobalStateGet (fes : APIServer) (env : RemoteEnv) (txn : BadgerTxn)
    (key : Bytes) : Except String Bytes :=
  if fes.GlobalStateRemoteNode ≠ "" then globalStateGetRemote fes env key
  else globalStateGetLocal txn key

/-- `GlobalStateBatchGet` (global_state.go lines 506-557). -/
def GlobalStateBatchGet (fes : APIServer) (env : RemoteEnv) (txn : BadgerTxn)
    (keyList : List Bytes) : Except String (List Bytes) :=
  if fes.GlobalStateRemoteNode ≠ "" then globalStateBatchGetRemote fes env keyList
  else globalStateBatchGetLocal txn keyList

/-- `GlobalStateDelete` (global_state.go lines 608-639). -/
def GlobalStateDelete (fes : APIServer) (env : RemoteEnv) (db : Store)
    (key : Bytes) : Except String Store :=
  if fes.GlobalStateRemoteNode ≠ "" then globalStateDeleteRemote fes env db key
  else globalStateDeleteLocal db key

/-- `GlobalStateSeek` (global_state.go lines 712-756). -/
def GlobalStateSeek (fes : APIServer) (env : RemoteEnv) (dbSeek : SeekOracle)
    (startPrefixArg validForPrefixArg : Bytes) (maxKeyLen numToFetch : Nat)
    (reverse fetchValues : Bool) : Except String (List Bytes × List Bytes) :=
  if fes.GlobalStateRemoteNode ≠ "" then
    globalStateSeekRemote fes env startPrefixArg validForPrefixArg maxKeyLen numToFetch reverse fetchValues
  else
    globalStateSeekLocal dbSeek startPrefixArg validForPrefixArg maxKeyLen numToFetch reverse fetchValues

/-! ## Basic store lemmas -/

theorem storeGet_storeSet_self (s : Store) (key value : Bytes) :
    storeGet (storeSet s key value) key = some value := by
  simp [storeSet, storeGet]

theorem storeGet_storeDelete_self (s : Store) (key : Bytes) :
    storeGet (storeDelete s key) key = none := by
  induction s with
  | nil => simp [storeDelete, storeGet]
  | cons kv rest ih =>
    obtain ⟨k, v⟩ := kv
    by_cases h : k = key <;> simp [storeDelete, storeGet, h, ih]

/-! ## Concrete environments used by closed statements -/

/-- A server instance with no remote node configured. -/
def localOnlyServer : APIServer := ⟨"", ""⟩

/-- A server instance configured with a remote owner. -/
def remoteConfiguredServer : APIServer := ⟨"http://remote-owner", "secret"⟩

/-- A placeholder network environment (its fields are irrelevant on the
local path, which never touches the network). -/
def trivialEnv : RemoteEnv :=
  { post := fun _ _ => .transportError ""
    marshalPutReq := fun _ _ => .ok []
    marshalGetReq := fun _ => .ok []
    marshalBatchGetReq := fun _ => .ok []
    marshalDeleteReq := fun _ => .ok []
    marshalSeekReq := fun _ _ _ _ _ _ => .ok []
    decodeGetResp := fun _ => none
    decodeBatchGetResp := fun _ => none
    decodeSeekResp := fun _ => none }

/-- A network environment whose remote owner always answers with HTTP
status 500 and an undecodable body. -/
def alwaysStatus500Env : RemoteEnv :=
  { trivialEnv with post := fun _ _ => .response 500 [] }

/-- A network environment in which every network call fails at the
transport level (connection refused). -/
def connectionRefusedEnv : RemoteEnv :=
  { trivialEnv with post := fun _ _ => .transportError "connection refused" }

/-! ## C1: local put/get/delete round trip -/

/-- C1: on an instance with no remote node configured
(`GlobalStateRemoteNode = ""`), for every key, value and starting store
state, `GlobalStatePut key value` succeeds and a following
`GlobalStateGet key` returns exactly `value` with no error; and
`GlobalStateDelete key` succeeds and a following `GlobalStateGet key`
returns the absent (empty) value with no error. -/
theorem globalState_put_get_delete_roundtrip (fes : APIServer) (env : RemoteEnv)
    (s : Store) (key value : Bytes) (hlocal : fes.GlobalStateRemoteNode = "") :
    GlobalStatePut fes env s key value = .ok (storeSet s key value) ∧
    GlobalStateGet fes env (txnOfStore (storeSet s key value)) key = .ok value ∧
    GlobalStateDelete fes env s key = .ok (storeDelete s key) ∧
    GlobalStateGet fes env (txnOfStore (storeDelete s key)) key = .ok [] := by
  refine ⟨?_, ?_, ?_, ?_⟩
  · simp [GlobalStatePut, hlocal, globalStatePutLocal]
  · simp [GlobalStateGet, hlocal, globalStateGetLocal, txnOfStore,
      storeGet_storeSet_self]
  · simp [GlobalStateDelete, hlocal, globalStateDeleteLocal]
  · simp [GlobalStateGet, hlocal, globalStateGetLocal, txnOfStore,
      storeGet_storeDelete_self]

/-- Witness for C1 at a concrete instance. -/
theorem globalState_put_get_delete_roundtrip_witness :
    GlobalStatePut localOnlyServer trivialEnv [] [0, 1, 2] [7] =
      .ok (storeSet [] [0, 1, 2] [7]) ∧
    GlobalStateGet localOnlyServer trivialEnv (txnOfStore (storeSet [] [0, 1, 2] [7])) [0, 1, 2] =
      .ok [7] ∧
    GlobalStateDelete localOnlyServer trivialEnv [] [0, 1, 2] =
      .ok (storeDelete [] [0, 1, 2]) ∧
    GlobalStateGet localOnlyServer trivialEnv (txnOfStore (storeDelete [] [0, 1, 2])) [0, 1, 2] =
      .ok [] :=
  globalState_put_get_delete_roundtrip localOnlyServer trivialEnv [] [0, 1, 2] [7] rfl

/-! ## C2: batch get alignment -/

theorem txnOfStore_get (s : Store) (key : Bytes) :
    (txnOfStore s).get key =
      match storeGet s key with
      | some v => .ok ⟨.ok v⟩
      | none => .error .keyNotFound := rfl

theorem globalStateBatchGetLoop_txnOfStore (s : Store) (keyList : List Bytes) :
    globalStateBatchGetLoop (txnOfStore s) keyList =
      .ok (keyList.map fun k => (storeGet s k).getD []) := by
  induction keyList with
  | nil => rfl
  | cons key rest ih =>
    cases hk : storeGet s key <;>
      simp [globalStateBatchGetLoop, txnOfStore_get, hk, ih]

/-- The property C2 asserts of a store state and a key list, literally as
stated: the batch get on the local-only instance succeeds with a list of
equal length, the entry of every present key is its stored value, and an
entry is empty exactly when its key is absent from the store. -/
def batchGetClaimHolds (s : Store) (keyList : List Bytes) : Prop :=
  ∃ vs, GlobalStateBatchGet localOnlyServer trivialEnv (txnOfStore s) keyList = .ok vs ∧
    vs.length = keyList.length ∧
    ∀ i, i < keyList.length →
      (∀ v, storeGet s (keyList.getD i []) = some v → vs.getD i [] = v) ∧
      (vs.getD i [] = [] ↔ storeGet s (keyList.getD i []) = none)

/-- C2 counterexample: in the store holding key `[0]` with the EMPTY stored
value, `GlobalStateBatchGet [[0]]` returns `[[]]`: the single entry is
empty although its key is present, so emptiness does not occur exactly at
absent positions. -/
theorem globalStateBatchGet_empty_value_counterexample :
    ¬ batchGetClaimHolds [([0], [])] [[0]] := by
  rintro ⟨vs, hvs, -, hall⟩
  have hres : GlobalStateBatchGet localOnlyServer trivialEnv
      (txnOfStore [([0], [])]) [[0]] = .ok [[]] := rfl
  rw [hres] at hvs
  have hv : vs = [[]] := by injection hvs with h; exact h.symm
  subst hv
  have h0 := (hall 0 (by decide)).2
  have : storeGet [([0], [])] [0] = none := h0.mp rfl
  simp [storeGet] at this

/-- C2 amended: on an instance with no remote node, for every store state
and key list, `GlobalStateBatchGet` over the healthy map-backed engine
returns the list that maps each key, in input order, to its stored value if
present and to the empty byte sequence if absent.  In particular the value
list has the length of the key list, present keys contribute their stored
values, and absent keys contribute empty entries — but an empty entry
appears exactly at positions whose key is absent OR whose stored value is
itself empty, not only at absent positions. -/
theorem globalStateBatchGet_aligned (fes : APIServer) (env : RemoteEnv)
    (s : Store) (keyList : List Bytes) (hlocal : fes.GlobalStateRemoteNode = "") :
    GlobalStateBatchGet fes env (txnOfStore s) keyList =
      .ok (keyList.map fun k => (storeGet s k).getD []) := by
  simp [GlobalStateBatchGet, hlocal, globalStateBatchGetLocal,
    globalStateBatchGetLoop_txnOfStore]

/-- Witness for the amended C2 at a concrete instance: one present key with
a non-empty value, one absent key. -/
theorem globalStateBatchGet_aligned_witness :
    GlobalStateBatchGet localOnlyServer trivialEnv (txnOfStore [([0, 1, 2], [120])])
      [[0, 1, 2], [9, 9, 9]] =
      .ok ([[0, 1, 2], [9, 9, 9]].map fun k => (storeGet [([0, 1, 2], [120])] k).getD []) :=
  globalStateBatchGet_aligned localOnlyServer trivialEnv [([0, 1, 2], [120])]
    [[0, 1, 2], [9, 9, 9]] rfl

/-! ## C3: single-point local-vs-remote dispatch -/

/-- C3: each of the five primitives consults `GlobalStateRemoteNode` exactly
once: with the empty string configured it executes the local store branch
(whose result is independent of the network environment), and with a
non-empty string configured it executes the remote branch, an HTTP POST to
the configured owner (whose result is independent of the local store,
transaction and seek oracle).  The branch condition is the only point where
the decision is made: the two branch functions never read the
configuration again to choose a path. -/
theorem globalState_dispatch (fes : APIServer) (env : RemoteEnv) (txn : BadgerTxn)
    (db : Store) (dbSeek : SeekOracle) (key value : Bytes) (keyList : List Bytes)
    (sp vp : Bytes) (mkl ntf : Nat) (rev fv : Bool) :
    (fes.GlobalStateRemoteNode = "" →
      GlobalStatePut fes env db key value = globalStatePutLocal db key value ∧
      GlobalStateGet fes env txn key = globalStateGetLocal txn key ∧
      GlobalStateBatchGet fes env txn keyList = globalStateBatchGetLocal txn keyList ∧
      GlobalStateDelete fes env db key = globalStateDeleteLocal db key ∧
      GlobalStateSeek fes env dbSeek sp vp mkl ntf rev fv =
        globalStateSeekLocal dbSeek sp vp mkl ntf rev fv) ∧
    (fes.GlobalStateRemoteNode ≠ "" →
      GlobalStatePut fes env db key value = globalStatePutRemote fes env db key value ∧
      GlobalStateGet fes env txn key = globalStateGetRemote fes env key ∧
      GlobalStateBatchGet fes env txn keyList = globalStateBatchGetRemote fes env keyList ∧
      GlobalStateDelete fes env db key = globalStateDeleteRemote fes env db key ∧
      GlobalStateSeek fes env dbSeek sp vp mkl ntf rev fv =
        globalStateSeekRemote fes env sp vp mkl ntf rev fv) := by
  constructor
  · intro h
    refine ⟨?_, ?_, ?_, ?_, ?_⟩ <;>
      simp [GlobalStatePut, GlobalStateGet, GlobalStateBatchGet,
        GlobalStateDelete, GlobalStateSeek, h]
  · intro h
    refine ⟨?_, ?_, ?_, ?_, ?_⟩ <;>
      simp [GlobalStatePut, GlobalStateGet, GlobalStateBatchGet,
        GlobalStateDelete, GlobalStateSeek, h]

/-- Witness for C3 at concrete instances, exercising both directions of the
dispatch decision on `GlobalStateGet`. -/
theorem globalState_dispatch_witness :
    GlobalStateGet localOnlyServer trivialEnv (txnOfStore []) [0] =
      globalStateGetLocal (txnOfStore []) [0] ∧
    GlobalStateGet remoteConfiguredServer trivialEnv (txnOfStore []) [0] =
      globalStateGetRemote remoteConfiguredServer trivialEnv [0] :=
  ⟨((globalState_dispatch localOnlyServer trivialEnv (txnOfStore []) [] (fun _ _ _ _ _ _ => .ok ([], []))
      [0] [] [] [] [] 0 0 false false).1 rfl).2.1,
   ((globalState_dispatch remoteConfiguredServer trivialEnv (txnOfStore []) [] (fun _ _ _ _ _ _ => .ok ([], []))
      [0] [] [] [] [] 0 0 false false).2 (by decide)).2.1⟩

/-! ## C4: engine lookup failures inside the local GlobalStateGet -/

/-- A read transaction whose point lookup always fails with an engine error
that is NOT key-not-found (e.g. an I/O or corruption error). -/
def corruptedTxn : BadgerTxn := ⟨fun _ => .error (.other "io error: disk corruption")⟩

/-- C4 counterexample: on the local path, a point lookup that fails with an
I/O error — an error other than key-not-found — does NOT surface: the
local-only `GlobalStateGet` succeeds and reports the key as absent (empty
value, no error), because the Go closure returns nil for every `txn.Get`
error. -/
theorem globalStateGet_swallows_engine_error :
    corruptedTxn.get [0] = .error (.other "io error: disk corruption") ∧
    BadgerErr.other "io error: disk corruption" ≠ .keyNotFound ∧
    GlobalStateGet localOnlyServer trivialEnv corruptedTxn [0] = .ok [] :=
  ⟨rfl, by decide, rfl⟩

/-- C4 amended: on the local path, EVERY error of the engine's point lookup
— key-not-found and any other engine failure alike — is treated as key
absent: `GlobalStateGet` returns the empty value with no error.  An error
naming the operation is returned only when copying the value of a found key
fails. -/
theorem globalStateGet_lookup_error_behaviour (fes : APIServer) (env : RemoteEnv)
    (txn : BadgerTxn) (key : Bytes) (hlocal : fes.GlobalStateRemoteNode = "") :
    (∀ e, txn.get key = .error e → GlobalStateGet fes env txn key = .ok []) ∧
    (∀ item e, txn.get key = .ok item → item.valueCopy = .error e →
      GlobalStateGet fes env txn key =
        .error ("GlobalStateGet: Error copying value into new slice: " ++ e.message)) := by
  constructor
  · intro e he
    simp [GlobalStateGet, hlocal, globalStateGetLocal, he]
  · intro item e hi hc
    simp [GlobalStateGet, hlocal, globalStateGetLocal, hi, hc]

/-- Witness for the amended C4: the lookup-error branch at `corruptedTxn`
and the copy-error branch at a transaction whose item copy fails. -/
theorem globalStateGet_lookup_error_behaviour_witness :
    GlobalStateGet localOnlyServer trivialEnv corruptedTxn [0] = .ok [] ∧
    GlobalStateGet localOnlyServer trivialEnv ⟨fun _ => .ok ⟨.error (.other "copy failed")⟩⟩ [0] =
      .error ("GlobalStateGet: Error copying value into new slice: " ++
        (BadgerErr.other "copy failed").message) :=
  ⟨(globalStateGet_lookup_error_behaviour localOnlyServer trivialEnv corruptedTxn [0] rfl).1
      (.other "io error: disk corruption") rfl,
   (globalStateGet_lookup_error_behaviour localOnlyServer trivialEnv
      ⟨fun _ => .ok ⟨.error (.other "copy failed")⟩⟩ [0] rfl).2
      ⟨.error (.other "copy failed")⟩ (.other "copy failed") rfl rfl⟩

/-! ## C5: remote-path failures -/

/-- C5 counterexample: with a remote node configured, when the remote owner
answers every POST with HTTP status 500 (a non-2xx status delivered without
a transport error), `GlobalStatePut` returns SUCCESS — the status code is
never inspected — contradicting the claim that a non-2xx response causes an
error. -/
theorem globalStatePut_non2xx_succeeds :
    remoteConfiguredServer.GlobalStateRemoteNode ≠ "" ∧
    alwaysStatus500Env.post "any-url" [] = .response 500 [] ∧
    GlobalStatePut remoteConfiguredServer alwaysStatus500Env [] [0] [1] = .ok [] :=
  ⟨by decide, rfl, rfl⟩

/-- C5 amended: on the remote path, a CONNECTION-LEVEL transport failure of
the HTTP POST causes every primitive to return an error naming the
operation; the HTTP status code of a delivered response is never inspected,
so this — not a non-2xx status — is the only network-level condition the
remote path reports. -/
theorem globalState_remote_transport_error (fes : APIServer) (env : RemoteEnv)
    (txn : BadgerTxn) (db : Store) (dbSeek : SeekOracle) (key value : Bytes)
    (keyList : List Bytes) (sp vp : Bytes) (mkl ntf : Nat) (rev fv : Bool)
    (hremote : fes.GlobalStateRemoteNode ≠ "") :
    (∀ url data m, CreateGlobalStatePutRequest fes env key value = .ok (url, data) →
      env.post url data = .transportError m →
      GlobalStatePut fes env db key value =
        .error "GlobalStatePut: Error processing remote request") ∧
    (∀ url data m, CreateGlobalStateGetRequest fes env key = .ok (url, data) →
      env.post url data = .transportError m →
      GlobalStateGet fes env txn key =
        .error "GlobalStateGet: Error processing remote request") ∧
    (∀ url data m, CreateGlobalStateBatchGetRequest fes env keyList = .ok (url, data) →
      env.post url data = .transportError m →
      GlobalStateBatchGet fes env txn keyList =
        .error "GlobalStateBatchGet: Error processing remote request") ∧
    (∀ url data m, CreateGlobalStateDeleteRequest fes env key = .ok (url, data) →
      env.post url data = .transportError m →
      GlobalStateDelete fes env db key =
        .error "GlobalStateDelete: Error processing remote request") ∧
    (∀ url data m, CreateGlobalStateSeekRequest fes env sp vp mkl ntf rev fv = .ok (url, data) →
      env.post url data = .transportError m →
      GlobalStateSeek fes env dbSeek sp vp mkl ntf rev fv =
        .error "GlobalStateSeek: Error processing remote request") := by
  refine ⟨?_, ?_, ?_, ?_, ?_⟩ <;> intro url data m hc hp
  · simp [GlobalStatePut, hremote, globalStatePutRemote, hc, hp]
  · simp [GlobalStateGet, hremote, globalStateGetRemote, hc, hp]
  · simp [GlobalStateBatchGet, hremote, globalStateBatchGetRemote, hc, hp]
  · simp [GlobalStateDelete, hremote, globalStateDeleteRemote, hc, hp]
  · simp [GlobalStateSeek, hremote, globalStateSeekRemote, hc, hp]

/-- Witness for the amended C5: with every POST refused at the transport
level, `GlobalStatePut` and `GlobalStateGet` error with their names. -/
theorem globalState_remote_transport_error_witness :
    GlobalStatePut remoteConfiguredServer connectionRefusedEnv [] [0] [1] =
      .error "GlobalStatePut: Error processing remote request" ∧
    GlobalStateGet remoteConfiguredServer connectionRefusedEnv (txnOfStore []) [0] =
      .error "GlobalStateGet: Error processing remote request" :=
  ⟨(globalState_remote_transport_error remoteConfiguredServer connectionRefusedEnv
      (txnOfStore []) [] (fun _ _ _ _ _ _ => .ok ([], [])) [0] [1] [] [] [] 0 0 false false
      (by decide)).1
      (remoteUrl remoteConfiguredServer RoutePathGlobalStatePutRemote) [] "connection refused"
      rfl rfl,
   (globalState_remote_transport_error remoteConfiguredServer connectionRefusedEnv
      (txnOfStore []) [] (fun _ _ _ _ _ _ => .ok ([], [])) [0] [1] [] [] [] 0 0 false false
      (by decide)).2.1
      (remoteUrl remoteConfiguredServer RoutePathGlobalStateGetRemote) [] "connection refused"
      rfl rfl⟩

/-! ## C9: a value-copy failure aborts the whole batch -/

theorem globalStateBatchGetLoop_copy_error (txn : BadgerTxn) (keyList : List Bytes)
    (key : Bytes) (item : BadgerItem) (e : BadgerErr) (hk : key ∈ keyList)
    (hg : txn.get key = .ok item) (hc : item.valueCopy = .error e) :
    ∃ e2, globalStateBatchGetLoop txn keyList = .error e2 := by
  induction keyList with
  | nil => cases hk
  | cons head rest ih =>
    rcases List.mem_cons.mp hk with rfl | hmem
    · exact ⟨e, by simp [globalStateBatchGetLoop, hg, hc]⟩
    · rcases hget : txn.get head with eh | itemh
      · obtain ⟨e2, he2⟩ := ih hmem
        exact ⟨e2, by simp [globalStateBatchGetLoop, hget, he2]⟩
      · rcases hcopy : itemh.valueCopy with eh | v
        · exact ⟨eh, by simp [globalStateBatchGetLoop, hget, hcopy]⟩
        · obtain ⟨e2, he2⟩ := ih hmem
          exact ⟨e2, by simp [globalStateBatchGetLoop, hget, hcopy, he2]⟩

/-- C9: on the local path, if the value copy of any present key in the list
fails, the whole `GlobalStateBatchGet` call returns an error and no value
list — a partial result is never returned. -/
theorem globalStateBatchGet_copy_error_aborts (fes : APIServer) (env : RemoteEnv)
    (txn : BadgerTxn) (keyList : List Bytes) (key : Bytes) (item : BadgerItem)
    (e : BadgerErr) (hlocal : fes.GlobalStateRemoteNode = "") (hk : key ∈ keyList)
    (hg : txn.get key = .ok item) (hc : item.valueCopy = .error e) :
    ∃ msg, GlobalStateBatchGet fes env txn keyList = .error msg := by
  obtain ⟨e2, he2⟩ := globalStateBatchGetLoop_copy_error txn keyList key item e hk hg hc
  exact ⟨"GlobalStateBatchGet: Error copying value into new slice: " ++ e2.message,
    by simp [GlobalStateBatchGet, hlocal, globalStateBatchGetLocal, he2]⟩

/-- A read transaction in which the value copy of key `[0]` fails and every
other key is absent. -/
def copyFailTxn : BadgerTxn :=
  ⟨fun key =>
    if key = [0] then .ok ⟨.error (.other "copy failed")⟩ else .error .keyNotFound⟩

/-- Witness for C9: a two-key batch whose second key has a failing value
copy makes the whole call error. -/
theorem globalStateBatchGet_copy_error_aborts_witness :
    ∃ msg, GlobalStateBatchGet localOnlyServer trivialEnv copyFailTxn [[1], [0]] = .error msg :=
  globalStateBatchGet_copy_error_aborts localOnlyServer trivialEnv copyFailTxn
    [[1], [0]] [0] ⟨.error (.other "copy failed")⟩ (.other "copy failed")
    rfl (by decide) rfl rfl

/-! ## Key codec

The nine key prefixes declared in global_state.go lines 71-120, and the key
constructor functions of lines 193-266, at the value level (the Go
`append([]byte{}, prefix...)` copy dance is modelled separately below for
the aliasing claim; at the value level a constructor's key is its prefix
followed by its serialized fields). -/

def _GlobalStatePrefixPublicKeyToUserMetadata : Bytes := [0]

def _GlobalStatePrefixTstampNanosPostHash : Bytes := [1]

def _GlobalStatePrefixPhoneNumberToPhoneNumberMetadata : Bytes := [2]

def _GlobalStatePrefixForVerifiedMap : Bytes := [3]

def _GlobalStatePrefixTstampNanosPinnedPostHash : Bytes := [4]

def _GlobalStatePrefixUsernameVerificationAuditLog : Bytes := [5]

def _GlobalStatePrefixPublicKeyToGraylistState : Bytes := [6]

def _GlobalStatePrefixPublicKeyToBlacklistState : Bytes := [7]

def _GlobalStatePrefixUserPublicKeyContactPublicKeyToMostRecentReadTstampNanos : Bytes := [8]

/-- UTF-8 encoding of one character: models the bytes of a Go string
conversion `[]byte(s)` character by character. -/
def utf8EncodeCharNat (c : Char) : List Nat :=
  let n := c.toNat
  if n < 0x80 then [n]
  else if n < 0x800 then [0xC0 + n / 0x40, 0x80 + n % 0x40]
  else if n < 0x10000 then
    [0xE0 + n / 0x1000, 0x80 + n / 0x40 % 0x40, 0x80 + n % 0x40]
  else
    [0xF0 + n / 0x40000, 0x80 + n / 0x1000 % 0x40, 0x80 + n / 0x40 % 0x40, 0x80 + n % 0x40]

/-- The bytes of a Go string (`[]byte(s)`): UTF-8 encoding of its
characters. -/
def strBytes (s : String) : Bytes := (s.data.map utf8EncodeCharNat).flatten

/-- Go `strings.ToLower` lower-cases the string rune by rune through
`unicode.ToLower`, the Unicode simple lowercase mapping.  The Unicode case
tables live in Go's standard library, external to this repository, so the
character-level mapping enters the model as an explicit parameter
(`unicodeToLower`), as the other standard-library collaborators
(`http.Post`, `json.Marshal`) do. -/
def stringsToLower (unicodeToLower : Char → Char) (s : String) : String :=
  ⟨s.data.map unicodeToLower⟩

/-- Modelled from the spec: `lib.EncodeUint64` of the external core library
serializes a 64-bit integer as 8 big-endian bytes (the spec's "big-endian
timestamp" field of feed-entry keys). -/
def encodeUint64 (n : Nat) : Bytes :=
  [n / 2 ^ 56 % 256, n / 2 ^ 48 % 256, n / 2 ^ 40 % 256, n / 2 ^ 32 % 256,
   n / 2 ^ 24 % 256, n / 2 ^ 16 % 256, n / 2 ^ 8 % 256, n % 256]

/-- `globalStateKeyForPhoneNumberBytesToPhoneNumberMetadata`
(global_state.go lines 208-212). -/
def globalStateKeyForPhoneNumberBytesToPhoneNumberMetadata (phoneNumberBytes : Bytes) : Bytes :=
  _GlobalStatePrefixPhoneNumberToPhoneNumberMetadata ++ phoneNumberBytes

/-- `GlobalStateKeyForPublicKeyToUserMetadata` (lines 215-219). -/
def GlobalStateKeyForPublicKeyToUserMetadata (profilePubKey : Bytes) : Bytes :=
  _GlobalStatePrefixPublicKeyToUserMetadata ++ profilePubKey

/-- `GlobalStateKeyForTstampPostHash` (lines 222-228); the post hash is the
32-byte block hash, handled here at the value level as its byte list. -/
def GlobalStateKeyForTstampPostHash (tstampNanos : Nat) (postHash : Bytes) : Bytes :=
  _GlobalStatePrefixTstampNanosPostHash ++ encodeUint64 tstampNanos ++ postHash

/-- `GlobalStateKeyForTstampPinnedPostHash` (lines 231-237). -/
def GlobalStateKeyForTstampPinnedPostHash (tstampNanos : Nat) (postHash : Bytes) : Bytes :=
  _GlobalStatePrefixTstampNanosPinnedPostHash ++ encodeUint64 tstampNanos ++ postHash

/-- `GlobalStateKeyForUsernameVerificationAuditLogs` (lines 240-244): the
username is lower-cased (by Go's Unicode case mapping, passed in as
`unicodeToLower`) before its bytes enter the key. -/
def GlobalStateKeyForUsernameVerificationAuditLogs (unicodeToLower : Char → Char)
    (username : String) : Bytes :=
  _GlobalStatePrefixUsernameVerificationAuditLog
    ++ strBytes (stringsToLower unicodeToLower username)

/-- `GlobalStateKeyForGraylistedProfile` (lines 247-251). -/
def GlobalStateKeyForGraylistedProfile (profilePubKey : Bytes) : Bytes :=
  _GlobalStatePrefixPublicKeyToGraylistState ++ profilePubKey

/-- `GlobalStateKeyForBlacklistedProfile` (lines 254-258). -/
def GlobalStateKeyForBlacklistedProfile (profilePubKey : Bytes) : Bytes :=
  _GlobalStatePrefixPublicKeyToBlacklistState ++ profilePubKey

/-- `GlobalStateKeyForUserPkContactPkToMostRecentReadTstampNanos`
(lines 261-266). -/
def GlobalStateKeyForUserPkContactPkToMostRecentReadTstampNanos
    (userPubKey contactPubKey : Bytes) : Bytes :=
  _GlobalStatePrefixUserPublicKeyContactPublicKeyToMostRecentReadTstampNanos
    ++ userPubKey ++ contactPubKey

/-! ## C6: phone-number key normalization -/

/-- The interface of the external `phonenumbers` library, abstracted over
its parsed-number type: `parse` models `phonenumbers.Parse(s, "")` and
`format` models `phonenumbers.Format(n, phonenumbers.E164)`. -/
structure PhoneLib (α : Type) where
  parse : String → Except String α
  format : α → String

/-- `GlobalStateKeyForPhoneNumberStringToPhoneNumberMetadata`
(global_state.go lines 193-203): parse the string, fail with a wrapped
error if unparsable, otherwise build the key from the E.164-formatted
number's bytes. -/
def GlobalStateKeyForPhoneNumberStringToPhoneNumberMetadata {α : Type}
    (lib : PhoneLib α) (phoneNumber : String) : Except String Bytes :=
  match lib.parse phoneNumber with
  | .error e =>
    .error ("GlobalStateKeyForPhoneNumberStringToPhoneNumberMetadata: Problem with phonenumbers.Parse: " ++ e)
  | .ok parsedNumber =>
    .ok (globalStateKeyForPhoneNumberBytesToPhoneNumberMetadata
      (strBytes (lib.format parsedNumber)))

/-- C6: two string representations that the phone-number library parses to
the same phone number produce byte-identical keys, and a string that fails
to parse produces an error and no key. -/
theorem phoneNumberKey_normalizes {α : Type} (lib : PhoneLib α) :
    (∀ s1 s2 n, lib.parse s1 = .ok n → lib.parse s2 = .ok n →
      GlobalStateKeyForPhoneNumberStringToPhoneNumberMetadata lib s1 =
        GlobalStateKeyForPhoneNumberStringToPhoneNumberMetadata lib s2) ∧
    (∀ s e, lib.parse s = .error e →
      GlobalStateKeyForPhoneNumberStringToPhoneNumberMetadata lib s =
        .error ("GlobalStateKeyForPhoneNumberStringToPhoneNumberMetadata: Problem with phonenumbers.Parse: " ++ e)) := by
  constructor
  · intro s1 s2 n h1 h2
    simp [GlobalStateKeyForPhoneNumberStringToPhoneNumberMetadata, h1, h2]
  · intro s e h
    simp [GlobalStateKeyForPhoneNumberStringToPhoneNumberMetadata, h]

/-- A concrete phone-number library fragment: two formattings of the same
US number parse to the same value; `"junk"` fails to parse. -/
def usPhoneLib : PhoneLib Nat :=
  { parse := fun s =>
      if s = "+1 650-253-0000" ∨ s = "+16502530000" then .ok 16502530000
      else .error ("invalid phone number: " ++ s)
    format := fun _ => "+16502530000" }

/-- Witness for C6: the punctuated and bare representations of one number
give identical keys, and an unparsable string errors. -/
theorem phoneNumberKey_normalizes_witness :
    GlobalStateKeyForPhoneNumberStringToPhoneNumberMetadata usPhoneLib "+1 650-253-0000" =
      GlobalStateKeyForPhoneNumberStringToPhoneNumberMetadata usPhoneLib "+16502530000" ∧
    GlobalStateKeyForPhoneNumberStringToPhoneNumberMetadata usPhoneLib "junk" =
      .error ("GlobalStateKeyForPhoneNumberStringToPhoneNumberMetadata: Problem with phonenumbers.Parse: " ++
        ("invalid phone number: " ++ "junk")) :=
  ⟨(phoneNumberKey_normalizes usPhoneLib).1 "+1 650-253-0000" "+16502530000" 16502530000
      rfl rfl,
   (phoneNumberKey_normalizes usPhoneLib).2 "junk" ("invalid phone number: " ++ "junk")
      rfl⟩

/-! ## C7: username case folding -/

/-- Two character lists differ only in letter case under a given case
mapping: same length, and the characters at each position lower-case to
the same character.  Instantiated with Go's `unicode.ToLower`, this is
exactly "the two usernames differ only in letter case". -/
def caseInsensitiveEqChars (unicodeToLower : Char → Char) :
    List Char → List Char → Bool
  | [], [] => true
  | c :: cs, d :: ds =>
    (unicodeToLower c == unicodeToLower d) && caseInsensitiveEqChars unicodeToLower cs ds
  | _, _ => false

theorem caseInsensitiveEqChars_toLower (lo : Char → Char) :
    ∀ a b : List Char, caseInsensitiveEqChars lo a b = true →
      a.map lo = b.map lo
  | [], [], _ => rfl
  | c :: cs, d :: ds, h => by
    rw [caseInsensitiveEqChars, Bool.and_eq_true, beq_iff_eq] at h
    simp only [List.map_cons, h.1, caseInsensitiveEqChars_toLower lo cs ds h.2]
  | [], _ :: _, h => by simp [caseInsensitiveEqChars] at h
  | _ :: _, [], h => by simp [caseInsensitiveEqChars] at h

/-- C7: for any case mapping — in particular Go's `unicode.ToLower` — two
usernames that differ only in letter case under that mapping produce
byte-identical verification-audit-log keys, so case variation can never
address two distinct audit-log records. -/
theorem usernameAuditLogKey_caseInsensitive (unicodeToLower : Char → Char)
    (u1 u2 : String)
    (h : caseInsensitiveEqChars unicodeToLower u1.data u2.data = true) :
    GlobalStateKeyForUsernameVerificationAuditLogs unicodeToLower u1 =
      GlobalStateKeyForUsernameVerificationAuditLogs unicodeToLower u2 := by
  have hlow : stringsToLower unicodeToLower u1 = stringsToLower unicodeToLower u2 :=
    congrArg String.mk (caseInsensitiveEqChars_toLower _ _ _ h)
  rw [GlobalStateKeyForUsernameVerificationAuditLogs,
    GlobalStateKeyForUsernameVerificationAuditLogs, hlow]

/-- A concrete fragment of the Unicode simple lowercase mapping computed by
Go's `unicode.ToLower`: the ASCII letters together with the Latin-1 pair
`'Ä' ↦ 'ä'`. -/
def demoUnicodeLower (c : Char) : Char :=
  if c = 'Ä' then 'ä'
  else if 'A' ≤ c ∧ c ≤ 'Z' then Char.ofNat (c.toNat + 32)
  else c

/-- Witness for C7: under the concrete mapping fragment, `"Älice"` and
`"äLICE"` — a pair whose case difference is non-ASCII — address the same
audit-log key. -/
theorem usernameAuditLogKey_caseInsensitive_witness :
    GlobalStateKeyForUsernameVerificationAuditLogs demoUnicodeLower "Älice" =
      GlobalStateKeyForUsernameVerificationAuditLogs demoUnicodeLower "äLICE" :=
  usernameAuditLogKey_caseInsensitive demoUnicodeLower "Älice" "äLICE" (by decide)

/-! ## C8: disjoint kind bytes, keys of distinct kinds never collide -/

/-- A logical record descriptor: one constructor per key-constructor
function of the codec, carrying that constructor's field values. -/
inductive KeyedRecord where
  | userMetadata (profilePubKey : Bytes)
  | tstampPostHash (tstampNanos : Nat) (postHash : Bytes)
  | phoneNumberMetadata (phoneNumberBytes : Bytes)
  | tstampPinnedPostHash (tstampNanos : Nat) (postHash : Bytes)
  | usernameVerificationAuditLogs (username : String)
  | graylistedProfile (profilePubKey : Bytes)
  | blacklistedProfile (profilePubKey : Bytes)
  | mostRecentReadTstamp (userPubKey contactPubKey : Bytes)

/-- The key produced for a record descriptor by its kind's constructor
function (the username constructor case-folds through the ambient Unicode
case mapping `unicodeToLower`). -/
def keyOfRecord (unicodeToLower : Char → Char) : KeyedRecord → Bytes
  | .userMetadata pk => GlobalStateKeyForPublicKeyToUserMetadata pk
  | .tstampPostHash t ph => GlobalStateKeyForTstampPostHash t ph
  | .phoneNumberMetadata pb => globalStateKeyForPhoneNumberBytesToPhoneNumberMetadata pb
  | .tstampPinnedPostHash t ph => GlobalStateKeyForTstampPinnedPostHash t ph
  | .usernameVerificationAuditLogs u =>
    GlobalStateKeyForUsernameVerificationAuditLogs unicodeToLower u
  | .graylistedProfile pk => GlobalStateKeyForGraylistedProfile pk
  | .blacklistedProfile pk => GlobalStateKeyForBlacklistedProfile pk
  | .mostRecentReadTstamp upk cpk =>
    GlobalStateKeyForUserPkContactPkToMostRecentReadTstampNanos upk cpk

/-- The declared kind byte of each record kind. -/
def kindByteOfRecord : KeyedRecord → Nat
  | .userMetadata _ => 0
  | .tstampPostHash _ _ => 1
  | .phoneNumberMetadata _ => 2
  | .tstampPinnedPostHash _ _ => 4
  | .usernameVerificationAuditLogs _ => 5
  | .graylistedProfile _ => 6
  | .blacklistedProfile _ => 7
  | .mostRecentReadTstamp _ _ => 8

theorem keyOfRecord_head (lo : Char → Char) (r : KeyedRecord) :
    (keyOfRecord lo r).head? = some (kindByteOfRecord r) := by
  cases r <;> rfl

/-- C8: every constructor's key begins with its kind's prefix byte, the
nine declared prefix byte strings (0 through 8, including the verified-map
prefix, which has no constructor function) are pairwise distinct, and keys
produced for two records of distinct kinds are never equal, whatever the
field values. -/
theorem keyOfRecord_kinds_never_collide :
    (∀ (unicodeToLower : Char → Char) (a b : KeyedRecord),
      kindByteOfRecord a ≠ kindByteOfRecord b →
      keyOfRecord unicodeToLower a ≠ keyOfRecord unicodeToLower b) ∧
    (∀ (unicodeToLower : Char → Char) (r : KeyedRecord),
      (keyOfRecord unicodeToLower r).head? = some (kindByteOfRecord r)) ∧
    [_GlobalStatePrefixPublicKeyToUserMetadata,
     _GlobalStatePrefixTstampNanosPostHash,
     _GlobalStatePrefixPhoneNumberToPhoneNumberMetadata,
     _GlobalStatePrefixForVerifiedMap,
     _GlobalStatePrefixTstampNanosPinnedPostHash,
     _GlobalStatePrefixUsernameVerificationAuditLog,
     _GlobalStatePrefixPublicKeyToGraylistState,
     _GlobalStatePrefixPublicKeyToBlacklistState,
     _GlobalStatePrefixUserPublicKeyContactPublicKeyToMostRecentReadTstampNanos].Nodup := by
  refine ⟨?_, keyOfRecord_head, ?_⟩
  · intro lo a b hne heq
    have hh := congrArg List.head? heq
    rw [keyOfRecord_head, keyOfRecord_head] at hh
    exact hne (Option.some.inj hh)
  · decide

/-- Witness for C8: a user-metadata key and a graylist key over the same
public-key bytes differ. -/
theorem keyOfRecord_kinds_never_collide_witness :
    keyOfRecord demoUnicodeLower (.userMetadata [9, 9]) ≠
      keyOfRecord demoUnicodeLower (.graylistedProfile [9, 9]) :=
  keyOfRecord_kinds_never_collide.1 demoUnicodeLower
    (.userMetadata [9, 9]) (.graylistedProfile [9, 9]) (by decide)

/-! ## C10: freshness and frame of the key constructors

The Go key constructors are built from `append`, whose aliasing behaviour
(in-place growth within capacity versus reallocation) is what the claim is
about, so here the constructors are modelled a second time at the Go slice
level: a heap of backing arrays, slices as (array, offset, length,
capacity) views, and `append` with Go's semantics.  The claim is that every
constructor leaves all pre-existing arrays — the prefix globals' and the
inputs' — untouched and returns a slice backed by a freshly allocated
array. -/

/-- A Go byte slice as a view into a backing array. -/
structure GoSlice where
  arr : Nat
  off : Nat
  len : Nat
  cap : Nat

/-- The heap of backing arrays, indexed by allocation order. -/
abbrev GoHeap := List Bytes

/-- The bytes a slice views. -/
def readSlice (h : GoHeap) (s : GoSlice) : Bytes :=
  ((h.getD s.arr []).drop s.off).take s.len

/-- Overwrite the bytes of an array starting at index `i`. -/
def writeBytes (a : Bytes) (i : Nat) (elems : Bytes) : Bytes :=
  a.take i ++ elems ++ a.drop (i + elems.length)

/-- Go `append(s, elems...)`: with no elements the slice is returned
unchanged; within capacity the elements are written in place into the
backing array (mutating the heap) and the slice's length grows; beyond
capacity a fresh array is allocated at the end of the heap, holding the
current contents followed by the new elements (with spare capacity), and
the returned slice views that fresh array. -/
def goAppend (h : GoHeap) (s : GoSlice) (elems : Bytes) : GoHeap × GoSlice :=
  if elems = [] then (h, s)
  else if s.len + elems.length ≤ s.cap then
    (h.set s.arr (writeBytes (h.getD s.arr []) (s.off + s.len) elems),
     ⟨s.arr, s.off, s.len + elems.length, s.cap⟩)
  else
    (h ++ [readSlice h s ++ elems ++
           List.replicate (max (s.len + elems.length) (2 * s.cap) - (s.len + elems.length)) 0],
     ⟨h.length, 0, s.len + elems.length, max (s.len + elems.length) (2 * s.cap)⟩)

/-- The slice denoted by the Go literal `[]byte{}`: no backing storage. -/
def emptyByteSlice : GoSlice := ⟨0, 0, 0, 0⟩

/-- The first `n` arrays of the heap are unchanged between `h` and `h2`. -/
def preservesBelow (n : Nat) (h h2 : GoHeap) : Prop :=
  ∀ i, i < n → h2.getD i [] = h.getD i []

theorem getD_set_ne {α : Type} (l : List α) (i j : Nat) (x d : α) (hij : i ≠ j) :
    (l.set i x).getD j d = l.getD j d := by
  rw [List.getD_eq_getElem?_getD, List.getD_eq_getElem?_getD,
    List.getElem?_set_ne hij]

theorem getD_append_left {α : Type} (l l2 : List α) (i : Nat) (d : α)
    (hi : i < l.length) : (l ++ l2).getD i d = l.getD i d := by
  rw [List.getD_eq_getElem?_getD, List.getD_eq_getElem?_getD,
    List.getElem?_append_left hi]

/-- One `append` step preserves the original arrays and the freshness of
the slice under construction: if the heap extends an original heap of `n`
arrays unchanged and the current slice is backed by an array allocated at
or after index `n`, the same holds after appending anything to it. -/
theorem goAppend_step (n : Nat) (h0 : GoHeap) (r : GoHeap × GoSlice) (elems : Bytes)
    (hpres : preservesBelow n h0 r.1) (harr : n ≤ r.2.arr) (hlen : n ≤ r.1.length) :
    preservesBelow n h0 (goAppend r.1 r.2 elems).1 ∧
    n ≤ (goAppend r.1 r.2 elems).2.arr ∧
    n ≤ (goAppend r.1 r.2 elems).1.length := by
  by_cases he : elems = []
  · simp only [goAppend, if_pos he]
    exact ⟨hpres, harr, hlen⟩
  · by_cases hcap : r.2.len + elems.length ≤ r.2.cap
    · simp only [goAppend, if_neg he, if_pos hcap]
      refine ⟨?_, harr, ?_⟩
      · intro i hi
        rw [getD_set_ne _ _ _ _ _ (Nat.ne_of_gt (lt_of_lt_of_le hi harr))]
        exact hpres i hi
      · rw [List.length_set]; exact hlen
    · simp only [goAppend, if_neg he, if_neg hcap]
      refine ⟨?_, hlen, ?_⟩
      · intro i hi
        rw [getD_append_left _ _ _ _ (lt_of_lt_of_le hi hlen)]
        exact hpres i hi
      · rw [List.length_append]
        exact le_trans hlen (Nat.le_add_right _ _)

/-- Appending a non-empty byte list to the empty slice literal always
reallocates: the result is backed by a freshly allocated array and every
array of the original heap is untouched. -/
theorem goAppend_from_empty (n : Nat) (h : GoHeap) (b : Nat) (bs : Bytes)
    (hn : n ≤ h.length) :
    preservesBelow n h (goAppend h emptyByteSlice (b :: bs)).1 ∧
    n ≤ (goAppend h emptyByteSlice (b :: bs)).2.arr ∧
    n ≤ (goAppend h emptyByteSlice (b :: bs)).1.length := by
  have he : (b :: bs) ≠ [] := by simp
  have hcap : ¬ (emptyByteSlice.len + (b :: bs).length ≤ emptyByteSlice.cap) := by
    simp [emptyByteSlice]
  simp only [goAppend, if_neg he, if_neg hcap]
  refine ⟨?_, hn, ?_⟩
  · intro i hi
    rw [getD_append_left _ _ _ _ (lt_of_lt_of_le hi hn)]
  · rw [List.length_append]
    exact le_trans hn (Nat.le_add_right _ _)

/-! The eight key constructors at the Go slice level, each the literal
sequence of `append`s from the source, starting from `[]byte{}` with the
prefix global's bytes and continuing with the serialized fields (field
reads happen on the heap current at that step, as in the source). -/

/-- `GlobalStateKeyForPublicKeyToUserMetadata`, slice level (lines 215-219). -/
def goKeyForPublicKeyToUserMetadata (h : GoHeap) (prefixSlice profilePubKey : GoSlice) :
    GoHeap × GoSlice :=
  let r1 := goAppend h emptyByteSlice (readSlice h prefixSlice)
  goAppend r1.1 r1.2 (readSlice r1.1 profilePubKey)

/-- `GlobalStateKeyForTstampPostHash`, slice level (lines 222-228). -/
def goKeyForTstampPostHash (h : GoHeap) (prefixSlice : GoSlice) (tstampNanos : Nat)
    (postHash : GoSlice) : GoHeap × GoSlice :=
  let r1 := goAppend h emptyByteSlice (readSlice h prefixSlice)
  let r2 := goAppend r1.1 r1.2 (encodeUint64 tstampNanos)
  goAppend r2.1 r2.2 (readSlice r2.1 postHash)

/-- `globalStateKeyForPhoneNumberBytesToPhoneNumberMetadata`, slice level
(lines 208-212). -/
def goKeyForPhoneNumberBytes (h : GoHeap) (prefixSlice phoneNumberBytes : GoSlice) :
    GoHeap × GoSlice :=
  let r1 := goAppend h emptyByteSlice (readSlice h prefixSlice)
  goAppend r1.1 r1.2 (readSlice r1.1 phoneNumberBytes)

/-- `GlobalStateKeyForTstampPinnedPostHash`, slice level (lines 231-237). -/
def goKeyForTstampPinnedPostHash (h : GoHeap) (prefixSlice : GoSlice) (tstampNanos : Nat)
    (postHash : GoSlice) : GoHeap × GoSlice :=
  let r1 := goAppend h emptyByteSlice (readSlice h prefixSlice)
  let r2 := goAppend r1.1 r1.2 (encodeUint64 tstampNanos)
  goAppend r2.1 r2.2 (readSlice r2.1 postHash)

/-- `GlobalStateKeyForUsernameVerificationAuditLogs`, slice level
(lines 240-244); `[]byte(strings.ToLower(username))` contributes fresh
bytes computed from the string value. -/
def goKeyForUsernameVerificationAuditLogs (h : GoHeap) (prefixSlice : GoSlice)
    (unicodeToLower : Char → Char) (username : String) : GoHeap × GoSlice :=
  let r1 := goAppend h emptyByteSlice (readSlice h prefixSlice)
  goAppend r1.1 r1.2 (strBytes (stringsToLower unicodeToLower username))

/-- `GlobalStateKeyForGraylistedProfile`, slice level (lines 247-251). -/
def goKeyForGraylistedProfile (h : GoHeap) (prefixSlice profilePubKey : GoSlice) :
    GoHeap × GoSlice :=
  let r1 := goAppend h emptyByteSlice (readSlice h prefixSlice)
  goAppend r1.1 r1.2 (readSlice r1.1 profilePubKey)

/-- `GlobalStateKeyForBlacklistedProfile`, slice level (lines 254-258). -/
def goKeyForBlacklistedProfile (h : GoHeap) (prefixSlice profilePubKey : GoSlice) :
    GoHeap × GoSlice :=
  let r1 := goAppend h emptyByteSlice (readSlice h prefixSlice)
  goAppend r1.1 r1.2 (readSlice r1.1 profilePubKey)

/-- `GlobalStateKeyForUserPkContactPkToMostRecentReadTstampNanos`, slice
level (lines 261-266). -/
def goKeyForUserPkContactPk (h : GoHeap) (prefixSlice userPubKey contactPubKey : GoSlice) :
    GoHeap × GoSlice :=
  let r1 := goAppend h emptyByteSlice (readSlice h prefixSlice)
  let r2 := goAppend r1.1 r1.2 (readSlice r1.1 userPubKey)
  goAppend r2.1 r2.2 (readSlice r2.1 contactPubKey)

/-- C10: run under Go slice semantics on any heap in which the respective
prefix global holds its declared byte, every key-constructor function
leaves every pre-existing backing array — in particular the arrays backing
the global prefix variables and the input slices — exactly as it was, and
returns a slice backed by a freshly allocated array (its index lies past
the end of the original heap).  Hence repeated or interleaved calls never
corrupt each other's keys or the prefix constants. -/
theorem goKeyConstructors_fresh (h : GoHeap) :
    (∀ ps pk, readSlice h ps = _GlobalStatePrefixPublicKeyToUserMetadata →
      preservesBelow h.length h (goKeyForPublicKeyToUserMetadata h ps pk).1 ∧
      h.length ≤ (goKeyForPublicKeyToUserMetadata h ps pk).2.arr) ∧
    (∀ ps t phash, readSlice h ps = _GlobalStatePrefixTstampNanosPostHash →
      preservesBelow h.length h (goKeyForTstampPostHash h ps t phash).1 ∧
      h.length ≤ (goKeyForTstampPostHash h ps t phash).2.arr) ∧
    (∀ ps pnb, readSlice h ps = _GlobalStatePrefixPhoneNumberToPhoneNumberMetadata →
      preservesBelow h.length h (goKeyForPhoneNumberBytes h ps pnb).1 ∧
      h.length ≤ (goKeyForPhoneNumberBytes h ps pnb).2.arr) ∧
    (∀ ps t phash, readSlice h ps = _GlobalStatePrefixTstampNanosPinnedPostHash →
      preservesBelow h.length h (goKeyForTstampPinnedPostHash h ps t phash).1 ∧
      h.length ≤ (goKeyForTstampPinnedPostHash h ps t phash).2.arr) ∧
    (∀ ps lo u, readSlice h ps = _GlobalStatePrefixUsernameVerificationAuditLog →
      preservesBelow h.length h (goKeyForUsernameVerificationAuditLogs h ps lo u).1 ∧
      h.length ≤ (goKeyForUsernameVerificationAuditLogs h ps lo u).2.arr) ∧
    (∀ ps pk, readSlice h ps = _GlobalStatePrefixPublicKeyToGraylistState →
      preservesBelow h.length h (goKeyForGraylistedProfile h ps pk).1 ∧
      h.length ≤ (goKeyForGraylistedProfile h ps pk).2.arr) ∧
    (∀ ps pk, readSlice h ps = _GlobalStatePrefixPublicKeyToBlacklistState →
      preservesBelow h.length h (goKeyForBlacklistedProfile h ps pk).1 ∧
      h.length ≤ (goKeyForBlacklistedProfile h ps pk).2.arr) ∧
    (∀ ps upk cpk,
      readSlice h ps = _GlobalStatePrefixUserPublicKeyContactPublicKeyToMostRecentReadTstampNanos →
      preservesBelow h.length h (goKeyForUserPkContactPk h ps upk cpk).1 ∧
      h.length ≤ (goKeyForUserPkContactPk h ps upk cpk).2.arr) := by
  refine ⟨?_, ?_, ?_, ?_, ?_, ?_, ?_, ?_⟩
  · intro ps pk hp
    simp only [goKeyForPublicKeyToUserMetadata, hp, _GlobalStatePrefixPublicKeyToUserMetadata]
    obtain ⟨p1, a1, l1⟩ := goAppend_from_empty h.length h 0 [] (le_refl _)
    exact ⟨(goAppend_step h.length h _ _ p1 a1 l1).1,
      (goAppend_step h.length h _ _ p1 a1 l1).2.1⟩
  · intro ps t phash hp
    simp only [goKeyForTstampPostHash, hp, _GlobalStatePrefixTstampNanosPostHash]
    obtain ⟨p1, a1, l1⟩ := goAppend_from_empty h.length h 1 [] (le_refl _)
    have h2 := goAppend_step h.length h _ (encodeUint64 t) p1 a1 l1
    exact ⟨(goAppend_step h.length h _ _ h2.1 h2.2.1 h2.2.2).1,
      (goAppend_step h.length h _ _ h2.1 h2.2.1 h2.2.2).2.1⟩
  · intro ps pnb hp
    simp only [goKeyForPhoneNumberBytes, hp, _GlobalStatePrefixPhoneNumberToPhoneNumberMetadata]
    obtain ⟨p1, a1, l1⟩ := goAppend_from_empty h.length h 2 [] (le_refl _)
    exact ⟨(goAppend_step h.length h _ _ p1 a1 l1).1,
      (goAppend_step h.length h _ _ p1 a1 l1).2.1⟩
  · intro ps t phash hp
    simp only [goKeyForTstampPinnedPostHash, hp, _GlobalStatePrefixTstampNanosPinnedPostHash]
    obtain ⟨p1, a1, l1⟩ := goAppend_from_empty h.length h 4 [] (le_refl _)
    have h2 := goAppend_step h.length h _ (encodeUint64 t) p1 a1 l1
    exact ⟨(goAppend_step h.length h _ _ h2.1 h2.2.1 h2.2.2).1,
      (goAppend_step h.length h _ _ h2.1 h2.2.1 h2.2.2).2.1⟩
  · intro ps lo u hp
    simp only [goKeyForUsernameVerificationAuditLogs, hp, _GlobalStatePrefixUsernameVerificationAuditLog]
    obtain ⟨p1, a1, l1⟩ := goAppend_from_empty h.length h 5 [] (le_refl _)
    exact ⟨(goAppend_step h.length h _ _ p1 a1 l1).1,
      (goAppend_step h.length h _ _ p1 a1 l1).2.1⟩
  · intro ps pk hp
    simp only [goKeyForGraylistedProfile, hp, _GlobalStatePrefixPublicKeyToGraylistState]
    obtain ⟨p1, a1, l1⟩ := goAppend_from_empty h.length h 6 [] (le_refl _)
    exact ⟨(goAppend_step h.length h _ _ p1 a1 l1).1,
      (goAppend_step h.length h _ _ p1 a1 l1).2.1⟩
  · intro ps pk hp
    simp only [goKeyForBlacklistedProfile, hp, _GlobalStatePrefixPublicKeyToBlacklistState]
    obtain ⟨p1, a1, l1⟩ := goAppend_from_empty h.length h 7 [] (le_refl _)
    exact ⟨(goAppend_step h.length h _ _ p1 a1 l1).1,
      (goAppend_step h.length h _ _ p1 a1 l1).2.1⟩
  · intro ps upk cpk hp
    simp only [goKeyForUserPkContactPk, hp,
      _GlobalStatePrefixUserPublicKeyContactPublicKeyToMostRecentReadTstampNanos]
    obtain ⟨p1, a1, l1⟩ := goAppend_from_empty h.length h 8 [] (le_refl _)
    have h2 := goAppend_step h.length h _ (readSlice (goAppend h emptyByteSlice [8]).1 upk) p1 a1 l1
    exact ⟨(goAppend_step h.length h _ _ h2.1 h2.2.1 h2.2.2).1,
      (goAppend_step h.length h _ _ h2.1 h2.2.1 h2.2.2).2.1⟩

/-- A concrete heap for the C10 witness: array `b` backs the prefix global
holding byte `b` for `b = 0..8`, and array 9 backs an input slice. -/
def c10Heap : GoHeap := [[0], [1], [2], [3], [4], [5], [6], [7], [8], [77, 88]]

/-- The slice through which the prefix global with byte `b` is viewed in
`c10Heap`. -/
def c10PrefixSlice (b : Nat) : GoSlice := ⟨b, 0, 1, 1⟩

/-- An input slice (e.g. a public key's bytes) in `c10Heap`. -/
def c10InputSlice : GoSlice := ⟨9, 0, 2, 2⟩

/-- Witness for C10: on the concrete heap, two representative constructors
(a two-append one and a three-append one) leave all ten original arrays
unchanged and return freshly backed slices. -/
theorem goKeyConstructors_fresh_witness :
    (preservesBelow c10Heap.length c10Heap
      (goKeyForPublicKeyToUserMetadata c10Heap (c10PrefixSlice 0) c10InputSlice).1 ∧
     c10Heap.length ≤
      (goKeyForPublicKeyToUserMetadata c10Heap (c10PrefixSlice 0) c10InputSlice).2.arr) ∧
    (preservesBelow c10Heap.length c10Heap
      (goKeyForTstampPostHash c10Heap (c10PrefixSlice 1) 100 c10InputSlice).1 ∧
     c10Heap.length ≤
      (goKeyForTstampPostHash c10Heap (c10PrefixSlice 1) 100 c10InputSlice).2.arr) ∧
    (preservesBelow c10Heap.length c10Heap
      (goKeyForUserPkContactPk c10Heap (c10PrefixSlice 8) c10InputSlice c10InputSlice).1 ∧
     c10Heap.length ≤
      (goKeyForUserPkContactPk c10Heap (c10PrefixSlice 8) c10InputSlice c10InputSlice).2.arr) :=
  ⟨(goKeyConstructors_fresh c10Heap).1 (c10PrefixSlice 0) c10InputSlice (by decide),
   (goKeyConstructors_fresh c10Heap).2.1 (c10PrefixSlice 1) 100 c10InputSlice (by decide),
   (goKeyConstructors_fresh c10Heap).2.2.2.2.2.2.2 (c10PrefixSlice 8) c10InputSlice c10InputSlice
     (by decide)⟩
